import Mathlib

/-!
ERP backend core, shallowly embedded from `backend/app/auth.py`,
`backend/app/main.py`, `backend/app/models.py` and `backend/app/config.py`.

Conventions of the embedding:
* machine time is seconds (`Nat`); every `datetime.utcnow()` becomes an
  explicit `now` argument;
* SHA-256 (`main._hash_refresh_token`) and bcrypt are modelled as injective
  encodings, the standard collision-freedom reading of a cryptographic hash;
* the JWT is modelled by its decoded claim set plus a signature-validity
  flag; `jose.jwt.decode` verifies the signature and then `_validate_exp`,
  which with zero leeway raises exactly when `exp < now`;
* `secrets.token_urlsafe` randomness becomes an explicit `freshRaw`
  argument to the operations that mint a refresh secret;
* the database session is a `St` value threaded through each handler; a
  handler that raises `HTTPException` before mutating returns the incoming
  state unchanged, exactly where the `raise` sits in the source.
-/

namespace ERP

/-- `models.Role`. -/
inductive Role where
  | admin
  | manager
  | staff
  | collaborator
deriving DecidableEq

/-- `models.User`, the identity-relevant columns. -/
structure User where
  id : Nat
  email : String
  hashedPassword : String
  departmentId : Option Nat
  role : Role
  active : Bool
deriving DecidableEq

/-- `models.RefreshToken`: hash of the raw secret, expiry, revocation flag. -/
structure RefreshToken where
  userId : Nat
  tokenHash : String
  expiresAt : Nat
  revoked : Bool
deriving DecidableEq

/-- `models.Task`, the authorization-relevant columns. -/
structure Task where
  id : Nat
  departmentId : Nat
  assignedToId : Nat
  createdById : Nat
deriving DecidableEq

/-- `models.Event`, the authorization-relevant columns (`department_id` is
nullable: departmentless events are the shared ones). -/
structure Event where
  id : Nat
  departmentId : Option Nat
deriving DecidableEq

/-- `models.Department`. -/
structure Department where
  id : Nat
  name : String
deriving DecidableEq

/-- `models.AccessGrant`. -/
structure AccessGrant where
  userId : Nat
  resourceType : String
  resourceId : String
  permission : String
  departmentId : Option Nat
deriving DecidableEq

/-- The persisted state surface reached by the handlers under study. -/
structure St where
  users : List User
  refreshTokens : List RefreshToken
  tasks : List Task
  departments : List Department
  grants : List AccessGrant
deriving DecidableEq

/-- `fastapi.HTTPException`: status code and detail string. -/
structure HTTPError where
  status : Nat
  detail : String
deriving DecidableEq

/-- `config.Settings.secret_key` default. -/
def secret_key : String := "change-me"

/-- `config.Settings.access_token_expire_minutes` (one day). -/
def access_token_expire_minutes : Nat := 60 * 24

/-- `config.Settings.refresh_token_expire_minutes` (seven days). -/
def refresh_token_expire_minutes : Nat := 60 * 24 * 7

/-- `auth.get_password_hash` (bcrypt), modelled as an injective tagging of
the plaintext: what the claims need from bcrypt is only that `verify`
recognises exactly the matching plaintext. -/
def get_password_hash (password : String) : String := "bcrypt$" ++ password

/-- `auth.verify_password`: true iff the plaintext matches the stored hash. -/
def verify_password (plain hashed : String) : Bool :=
  hashed == get_password_hash plain

/-- The signed access token, modelled by its claims (`sub`, `exp`) plus a
flag recording whether its signature verifies under the process key. -/
structure AccessToken where
  sub : Option Nat
  exp : Nat
  sigValid : Bool
deriving DecidableEq

/-- `auth.create_access_token` for payload `data = ("sub", str(user.id))`:
claims `sub`, `exp = now + access TTL`, signed with the process key. -/
def create_access_token (userId : Nat) (now : Nat) : AccessToken :=
  { sub := some userId
    exp := now + access_token_expire_minutes * 60
    sigValid := true }

/-- `jose.jwt.decode`: raises `JWTError` when the signature does not verify;
then `_validate_exp` with zero leeway raises `ExpiredSignatureError` (a
`JWTError`) exactly when `exp < now`; otherwise the claims are returned. -/
def jwt_decode (token : AccessToken) (now : Nat) : Option AccessToken :=
  if token.sigValid && decide (now ≤ token.exp) then some token else none

/-- `main._hash_refresh_token`: `sha256(raw + secret_key)`, modelled as the
(injective) concatenation itself. -/
def hash_refresh_token (raw : String) : String := raw ++ secret_key

/-- The access/refresh pair returned by `/auth/token` and `/auth/refresh`
(`schemas.Token`; `token_type` is the constant `"bearer"`). -/
structure TokenPair where
  accessToken : AccessToken
  refreshSecret : String
deriving DecidableEq

/-- `auth.get_user`: first user by email. -/
def get_user (s : St) (email : String) : Option User :=
  s.users.find? (fun u => u.email == email)

/-- `auth.authenticate_user`: look the user up by email and verify the
password; `None` on either failure. The `active` flag is not consulted. -/
def authenticate_user (s : St) (email password : String) : Option User :=
  match get_user s email with
  | none => none
  | some u => if verify_password password u.hashedPassword then some u else none

/-- The 401 raised throughout `auth.get_current_user`. -/
def credentials_exception : HTTPError :=
  { status := 401, detail := "Could not validate credentials" }

/-- `auth.get_current_user`: decode and validate the token, read `sub`,
look the user up by primary key, reject an absent or inactive user. -/
def get_current_user (s : St) (token : AccessToken) (now : Nat) :
    Except HTTPError User :=
  match jwt_decode token now with
  | none => .error credentials_exception
  | some payload =>
    match payload.sub with
    | none => .error credentials_exception
    | some userId =>
      match s.users.find? (fun u => u.id == userId) with
      | none => .error credentials_exception
      | some u => if u.active then .ok u else .error credentials_exception

/-- `main._issue_refresh_token`: persist the hash of a fresh random secret
with `expires_at = now + refresh TTL` and `revoked = False`; the raw secret
is returned to the caller. -/
def issue_refresh_token (s : St) (userId : Nat) (freshRaw : String) (now : Nat) :
    String × St :=
  let record : RefreshToken :=
    { userId := userId
      tokenHash := hash_refresh_token freshRaw
      expiresAt := now + refresh_token_expire_minutes * 60
      revoked := false }
  (freshRaw, { s with refreshTokens := s.refreshTokens ++ [record] })

/-- `main._revoke_refresh_token`: `UPDATE refresh_tokens SET revoked = true
WHERE token_hash = :hash` - every matching row, no error if none match. -/
def revoke_refresh_token (s : St) (tokenHash : String) : St :=
  { s with
    refreshTokens := s.refreshTokens.map (fun r =>
      if r.tokenHash == tokenHash then { r with revoked := true } else r) }

/-- `POST /auth/token` (`main.login_for_access_token`): authenticate, then
mint an access token and persist a fresh refresh secret. -/
def login_for_access_token (s : St) (email password freshRaw : String) (now : Nat) :
    Except HTTPError TokenPair × St :=
  match authenticate_user s email password with
  | none => (.error { status := 401, detail := "Incorrect email or password" }, s)
  | some user =>
    let access := create_access_token user.id now
    let issued := issue_refresh_token s user.id freshRaw now
    (.ok { accessToken := access, refreshSecret := issued.1 }, issued.2)

/-- The ledger lookup filter of `POST /auth/refresh`: matching hash, not
revoked, not yet expired. -/
def refreshQuery (tokenHash : String) (now : Nat) : RefreshToken → Bool :=
  fun r => r.tokenHash == tokenHash && !r.revoked && decide (now < r.expiresAt)

/-- `query.first()` followed by `record.revoked = True`: set `revoked` on
the first row satisfying the filter, leaving every other row unchanged. -/
def markFirstRevoked (p : RefreshToken → Bool) : List RefreshToken → List RefreshToken
  | [] => []
  | r :: rs => if p r then { r with revoked := true } :: rs else r :: markFirstRevoked p rs

/-- The 401 of `POST /auth/refresh` when no live ledger row matches. -/
def invalid_refresh_error : HTTPError :=
  { status := 401, detail := "Invalid refresh token" }

/-- The 401 of `POST /auth/refresh` when the owner is absent or inactive. -/
def user_inactive_error : HTTPError :=
  { status := 401, detail := "User inactive" }

/-- `POST /auth/refresh` (`main.refresh_token`): locate a live ledger row by
hash; 401 if none; 401 if the owning user is absent or inactive (before any
mutation); otherwise revoke the located row, persist a fresh secret and
mint a fresh access token. -/
def refresh_token (s : St) (raw freshRaw : String) (now : Nat) :
    Except HTTPError TokenPair × St :=
  match s.refreshTokens.find? (refreshQuery (hash_refresh_token raw) now) with
  | none => (.error invalid_refresh_error, s)
  | some record =>
    match s.users.find? (fun u => u.id == record.userId) with
    | none => (.error user_inactive_error, s)
    | some user =>
      if !user.active then (.error user_inactive_error, s)
      else
        let s1 : St :=
          { s with refreshTokens :=
              markFirstRevoked (refreshQuery (hash_refresh_token raw) now) s.refreshTokens }
        let issued := issue_refresh_token s1 user.id freshRaw now
        (.ok { accessToken := create_access_token user.id now
               refreshSecret := issued.1 }, issued.2)

/-- `POST /auth/logout`: revoke whatever rows match the hash and answer 204
unconditionally - no signal about whether a match was found. -/
def logout (s : St) (raw : String) : Nat × St :=
  (204, revoke_refresh_token s (hash_refresh_token raw))

/-- `main._task_guard`: admin passes; a manager outside the task's
department is forbidden; a staff user who is not the assignee is forbidden;
anyone else passes. -/
def task_guard (task : Task) (user : User) : Except HTTPError Unit :=
  if user.role = Role.admin then .ok ()
  else if user.role = Role.manager ∧ user.departmentId ≠ some task.departmentId then
    .error { status := 403, detail := "Not allowed outside department" }
  else if user.role = Role.staff ∧ user.id ≠ task.assignedToId then
    .error { status := 403, detail := "Task not assigned to you" }
  else .ok ()

/-- The resolve-and-authorize prefix of `PATCH /tasks/(task_id)`
(`main.update_task`): fetch the task, 404 if absent, then `_task_guard`.
The whole state - its `grants` list included - is in scope here. -/
def update_task_auth (s : St) (taskId : Nat) (user : User) : Except HTTPError Unit :=
  match s.tasks.find? (fun t => t.id == taskId) with
  | none => .error { status := 404, detail := "Task not found" }
  | some task => task_guard task user

/-- The authorization prefix of `PATCH /events/(event_id)`
(`main.update_event`): a manager is forbidden when the event's department
differs from theirs or is absent; a non-admin non-manager is forbidden. -/
def update_event_auth (ev : Event) (user : User) : Except HTTPError Unit :=
  if user.role = Role.manager then
    if ev.departmentId ≠ user.departmentId ∨ ev.departmentId = none then
      .error { status := 403, detail := "Managers cannot modify shared or other department events" }
    else .ok ()
  else if user.role ≠ Role.admin then
    .error { status := 403, detail := "Not allowed to update events" }
  else .ok ()

/-- `schemas.TaskCreate`, the authorization-relevant fields. -/
structure TaskCreate where
  departmentId : Nat
  assignedToId : Nat
  startDate : Nat
  endDate : Nat
deriving DecidableEq

/-- `POST /tasks` (`main.create_task`): validate department and assignee,
apply the manager and staff scoping rules, validate dates, insert. -/
def create_task (s : St) (input : TaskCreate) (user : User) (newId : Nat) :
    Except HTTPError Task × St :=
  match s.departments.find? (fun d => d.id == input.departmentId) with
  | none => (.error { status := 400, detail := "Department not found" }, s)
  | some _ =>
    match s.users.find? (fun u => u.id == input.assignedToId) with
    | none => (.error { status := 404, detail := "Assignee not found" }, s)
    | some _ =>
      if user.role = Role.manager ∧ user.departmentId ≠ some input.departmentId then
        (.error { status := 403, detail := "Managers can only create tasks in their department" }, s)
      else if user.role = Role.staff ∧ user.departmentId ≠ some input.departmentId then
        (.error { status := 403, detail := "Staff can only create tasks in their department" }, s)
      else if user.role = Role.staff ∧ user.id ≠ input.assignedToId then
        (.error { status := 403, detail := "Staff can only assign tasks to themselves" }, s)
      else if input.endDate < input.startDate then
        (.error { status := 400, detail := "End date must be after start date" }, s)
      else
        let task : Task :=
          { id := newId
            departmentId := input.departmentId
            assignedToId := input.assignedToId
            createdById := user.id }
        (.ok task, { s with tasks := s.tasks ++ [task] })

/-- Spec-side predicate, for comparison with the code: the spec's
`AccessGrant` escape hatch says a grant matches on `user_id`, on
`resource_type` (or a wildcard), on `resource_id` (or the wildcard
`"all"`), on `permission`, and on an optional department scope. No
source function performs this check; this definition follows the spec's
wording so the escape-hatch claim can be stated against the code. -/
def specGrantMatches (g : AccessGrant) (user : User)
    (resourceType resourceId permission : String) : Bool :=
  g.userId == user.id &&
  (g.resourceType == resourceType || g.resourceType == "all") &&
  (g.resourceId == resourceId || g.resourceId == "all") &&
  g.permission == permission &&
  (g.departmentId.isNone || g.departmentId == user.departmentId)

/-- The claim-level reactivation step: set `active = true` on the user with
the given id (an admin `PATCH /users` flipping the flag back). -/
def reactivate (s : St) (userId : Nat) : St :=
  { s with
    users := s.users.map (fun u =>
      if u.id == userId then { u with active := true } else u) }

/-- Success test on a handler result. -/
def resultOk {α : Type} : Except HTTPError α → Bool
  | .ok _ => true
  | .error _ => false

/-! ## C4 -/

/-- C4: for every access token with a valid signature and an expiry later
than now, `get_current_user` answers `credentials_exception` (the
`InvalidCredentials` of the spec) whenever the user named by the token's
`sub` claim is absent from the user store or has `active = false`; a user
deactivated after the token was issued is therefore rejected on the very
next call. -/
theorem authenticate_rejects_inactive_or_absent
    (s : St) (token : AccessToken) (now userId : Nat)
    (hsig : token.sigValid = true) (hexp : now < token.exp)
    (hsub : token.sub = some userId)
    (huser : s.users.find? (fun u => u.id == userId) = none ∨
      ∃ u, s.users.find? (fun u => u.id == userId) = some u ∧ u.active = false) :
    get_current_user s token now = .error credentials_exception := by
  unfold get_current_user jwt_decode
  rw [hsig]
  have hle : decide (now ≤ token.exp) = true := decide_eq_true (Nat.le_of_lt hexp)
  rw [hle]
  simp only [Bool.and_self, if_true, hsub]
  rcases huser with h | ⟨u, hu, hact⟩
  · rw [h]
  · rw [hu]
    simp [hact]

/-- Witness for C4 at a concrete input: empty user store, valid unexpired
token for user 1. -/
theorem authenticate_rejects_inactive_or_absent_witness :
    get_current_user { users := [], refreshTokens := [], tasks := [], departments := [], grants := [] }
      { sub := some 1, exp := 10, sigValid := true } 5 = .error credentials_exception :=
  authenticate_rejects_inactive_or_absent _ _ 5 1 rfl (by decide) rfl (Or.inl rfl)

/-! ## C5 -/

/-- The concrete state for the C5 boundary counterexample: one active user. -/
def c5_user : User :=
  { id := 1, email := "active@x", hashedPassword := get_password_hash "pw"
    departmentId := none, role := Role.admin, active := true }

def c5_state : St :=
  { users := [c5_user], refreshTokens := [], tasks := [], departments := [], grants := [] }

def c5_token : AccessToken := { sub := some 1, exp := 100, sigValid := true }

/-- C5 counterexample: a token whose `exp` equals the current time (so
`exp ≤ now`) with a valid signature and an active user is ACCEPTED:
`jose`'s `_validate_exp` raises only when `exp` is strictly below `now`,
so the claim "exp less than or equal to now always fails" is false at the
boundary `exp = now`. -/
theorem authenticate_exp_boundary_cex :
    c5_token.exp ≤ 100 ∧ resultOk (get_current_user c5_state c5_token 100) = true := by
  constructor
  · decide
  · rfl

/-- C5 amended: every token whose `exp` is strictly below the current time
is rejected with `credentials_exception`, regardless of whether its
signature is valid. -/
theorem authenticate_rejects_expired
    (s : St) (token : AccessToken) (now : Nat) (hexp : token.exp < now) :
    get_current_user s token now = .error credentials_exception := by
  unfold get_current_user jwt_decode
  have hle : decide (now ≤ token.exp) = false :=
    decide_eq_false (Nat.not_le.mpr hexp)
  rw [hle]
  simp

/-- Witness for C5 (amended) at a concrete input: expired token with a
VALID signature and an existing active user, still rejected. -/
theorem authenticate_rejects_expired_witness :
    get_current_user c5_state { sub := some 1, exp := 99, sigValid := true } 100 =
      .error credentials_exception :=
  authenticate_rejects_expired c5_state _ 100 (by decide)

/-! ## C2 -/

/-- The concrete state for the C2 counterexample: one INACTIVE user whose
stored hash matches the password "pw". -/
def c2_user : User :=
  { id := 5, email := "inactive@x", hashedPassword := get_password_hash "pw"
    departmentId := none, role := Role.staff, active := false }

def c2_state : St :=
  { users := [c2_user], refreshTokens := [], tasks := [], departments := [], grants := [] }

/-- C2 counterexample: a user with `active = false` and a matching password
logs in successfully, so login does NOT require the active flag - neither
`auth.authenticate_user` nor the `/auth/token` handler consults it. -/
theorem login_inactive_user_cex :
    c2_user.active = false ∧
    get_user c2_state "inactive@x" = some c2_user ∧
    resultOk (login_for_access_token c2_state "inactive@x" "pw" "fresh" 0).1 = true := by
  refine ⟨rfl, ?_, rfl⟩
  rfl

/-- C2 amended: `login(email, password)` succeeds iff a user with that
email exists and the password verifies against the stored hash - the
`active` flag is not consulted; in every other case it fails with the 401
`Incorrect email or password` and the state is unchanged. -/
theorem login_succeeds_iff_password_matches
    (s : St) (email password freshRaw : String) (now : Nat) :
    ((∃ u, get_user s email = some u ∧ verify_password password u.hashedPassword = true) →
      ∃ pair s2, login_for_access_token s email password freshRaw now = (.ok pair, s2)) ∧
    ((∀ u, get_user s email = some u → verify_password password u.hashedPassword = false) →
      login_for_access_token s email password freshRaw now =
        (.error { status := 401, detail := "Incorrect email or password" }, s)) := by
  constructor
  · rintro ⟨u, hu, hv⟩
    unfold login_for_access_token authenticate_user
    rw [hu]
    simp only [hv, if_true]
    exact ⟨_, _, rfl⟩
  · intro hfail
    unfold login_for_access_token authenticate_user
    cases hg : get_user s email with
    | none => rfl
    | some u => simp only [hfail u hg, Bool.false_eq_true, if_false]

/-- Witness for C2 (amended) at a concrete input: wrong password is
rejected with the 401 and an unchanged state. -/
theorem login_succeeds_iff_password_matches_witness :
    login_for_access_token c5_state "active@x" "wrong" "fresh" 0 =
      (.error { status := 401, detail := "Incorrect email or password" }, c5_state) := by
  apply (login_succeeds_iff_password_matches c5_state "active@x" "wrong" "fresh" 0).2
  intro u hu
  have h1 : get_user c5_state "active@x" = some c5_user := rfl
  rw [h1] at hu
  cases hu
  decide

/-! ## C6 -/

/-- After `_revoke_refresh_token`, no row passes the refresh lookup filter
for the revoked hash: a matching row is now revoked, a non-matching row
fails the hash test. -/
lemma revoke_kills_query (l : List RefreshToken) (tokenHash : String) (now : Nat) :
    ∀ x ∈ l.map (fun r =>
        if r.tokenHash == tokenHash then { r with revoked := true } else r),
      ¬ refreshQuery tokenHash now x = true := by
  intro x hx
  rcases List.mem_map.mp hx with ⟨r, _, hr⟩
  by_cases h : r.tokenHash == tokenHash
  · rw [if_pos h] at hr
    subst hr
    simp [refreshQuery]
  · rw [if_neg h] at hr
    subst hr
    simp [refreshQuery, h]

/-- Mapping a revocation over a list twice is the same as mapping it once. -/
lemma revoke_map_idem (l : List RefreshToken) (tokenHash : String) :
    (l.map (fun r => if r.tokenHash == tokenHash then { r with revoked := true } else r)).map
        (fun r => if r.tokenHash == tokenHash then { r with revoked := true } else r) =
      l.map (fun r => if r.tokenHash == tokenHash then { r with revoked := true } else r) := by
  rw [List.map_map]
  apply List.map_congr_left
  intro r _
  by_cases h : r.tokenHash == tokenHash
  · simp [Function.comp, h]
  · simp [Function.comp, h]

/-- A revocation map over rows none of which carry the hash is the identity. -/
lemma revoke_map_noop (l : List RefreshToken) (tokenHash : String)
    (hnone : ∀ r ∈ l, r.tokenHash ≠ tokenHash) :
    l.map (fun r => if r.tokenHash == tokenHash then { r with revoked := true } else r) = l := by
  have : ∀ r ∈ l, (if r.tokenHash == tokenHash then { r with revoked := true } else r) = r := by
    intro r hr
    rw [if_neg]
    simp only [beq_iff_eq]
    exact hnone r hr
  calc l.map _ = l.map id := List.map_congr_left this
  _ = l := List.map_id l

/-- C6: after `logout(T)`, every `refresh(T)` fails with the 401
`Invalid refresh token` and leaves the state unchanged; a second
`logout(T)` returns exactly the first call's answer (same 204, same
state); and `logout` on a secret with no matching ledger row returns the
same empty 204 success with the state untouched. -/
theorem logout_idempotent_refresh_fails (s : St) (raw : String) :
    (∀ freshRaw now, refresh_token (logout s raw).2 raw freshRaw now =
        (.error invalid_refresh_error, (logout s raw).2)) ∧
    logout (logout s raw).2 raw = logout s raw ∧
    ((∀ r ∈ s.refreshTokens, r.tokenHash ≠ hash_refresh_token raw) →
      logout s raw = (204, s)) := by
  refine ⟨?_, ?_, ?_⟩
  · intro freshRaw now
    unfold refresh_token
    have hnone : ((logout s raw).2).refreshTokens.find?
        (refreshQuery (hash_refresh_token raw) now) = none := by
      apply List.find?_eq_none.mpr
      exact revoke_kills_query s.refreshTokens (hash_refresh_token raw) now
    rw [hnone]
  · unfold logout revoke_refresh_token
    simp only [Prod.mk.injEq, true_and]
    congr 1
    exact revoke_map_idem s.refreshTokens (hash_refresh_token raw)
  · intro hnone
    unfold logout revoke_refresh_token
    simp only [Prod.mk.injEq, true_and]
    have := revoke_map_noop s.refreshTokens (hash_refresh_token raw) hnone
    rw [this]

/-- The concrete states for the C6 witness. -/
def w6_state : St :=
  { users := [c5_user]
    refreshTokens := [{ userId := 1, tokenHash := hash_refresh_token "T", expiresAt := 100, revoked := false }]
    tasks := [], departments := [], grants := [] }

def w6_unknown_state : St :=
  { users := [], refreshTokens := [], tasks := [], departments := [], grants := [] }

/-- Witness for C6 at concrete inputs: refresh after logout is rejected,
logout is idempotent, logout on an unknown secret is a state-preserving
204. -/
theorem logout_idempotent_refresh_fails_witness :
    refresh_token (logout w6_state "T").2 "T" "F" 3 =
      (.error invalid_refresh_error, (logout w6_state "T").2) ∧
    logout (logout w6_state "T").2 "T" = logout w6_state "T" ∧
    logout w6_unknown_state "Z" = (204, w6_unknown_state) :=
  ⟨(logout_idempotent_refresh_fails w6_state "T").1 "F" 3,
   (logout_idempotent_refresh_fails w6_state "T").2.1,
   (logout_idempotent_refresh_fails w6_unknown_state "Z").2.2 (by decide)⟩

/-! ## C7 -/

/-- C7: for a manager in department `a`, a task mutation passes
`_task_guard` exactly when the task's department is `a`, and an event
mutation passes the `update_event` authorization exactly when the event's
department is `a` - an event of another department or with no department
at all is forbidden. -/
theorem manager_department_scope
    (user : User) (a : Nat) (task : Task) (ev : Event)
    (hrole : user.role = Role.manager) (hdept : user.departmentId = some a) :
    (task_guard task user = .ok () ↔ task.departmentId = a) ∧
    (update_event_auth ev user = .ok () ↔ ev.departmentId = some a) := by
  constructor
  · unfold task_guard
    rw [hrole, hdept]
    by_cases h : task.departmentId = a
    · simp [h]
    · simp [h, Ne.symm h]
  · unfold update_event_auth
    rw [hrole, hdept]
    by_cases h : ev.departmentId = some a
    · simp [h]
    · simp [h]

/-- The concrete manager, task and event for the C7 witness. -/
def w7_user : User :=
  { id := 3, email := "mgr@x", hashedPassword := get_password_hash "pw"
    departmentId := some 1, role := Role.manager, active := true }

def w7_task : Task := { id := 8, departmentId := 1, assignedToId := 4, createdById := 3 }

def w7_event : Event := { id := 9, departmentId := some 2 }

/-- Witness for C7 at concrete inputs: the manager of department 1 passes
the guard for a department-1 task and is forbidden for a department-2
event. -/
theorem manager_department_scope_witness :
    (task_guard w7_task w7_user = .ok () ↔ w7_task.departmentId = 1) ∧
    (update_event_auth w7_event w7_user = .ok () ↔ w7_event.departmentId = some 1) :=
  manager_department_scope w7_user 1 w7_task w7_event rfl rfl

/-! ## C8 -/

/-- C8: a staff user passes `_task_guard` exactly when they are the task's
recorded assignee - a task in their own department assigned to someone
else is forbidden - and a staff creation that succeeds necessarily targets
the staff user's own department and assigns the task to themselves. -/
theorem staff_ownership_scope
    (user : User) (task : Task) (s : St) (input : TaskCreate) (newId : Nat)
    (hrole : user.role = Role.staff) :
    (task_guard task user = .ok () ↔ user.id = task.assignedToId) ∧
    (∀ t s2, create_task s input user newId = (.ok t, s2) →
      user.departmentId = some input.departmentId ∧ user.id = input.assignedToId) := by
  constructor
  · unfold task_guard
    rw [hrole]
    by_cases h : user.id = task.assignedToId
    · simp [h]
    · simp [h]
  · intro t s2 hok
    unfold create_task at hok
    cases hd : s.departments.find? (fun d => d.id == input.departmentId) with
    | none => rw [hd] at hok; simp at hok
    | some d =>
      rw [hd] at hok
      cases ha : s.users.find? (fun u => u.id == input.assignedToId) with
      | none => rw [ha] at hok; simp at hok
      | some assignee =>
        rw [ha, hrole] at hok
        by_cases h1 : user.departmentId = some input.departmentId
        · by_cases h2 : user.id = input.assignedToId
          · exact ⟨h1, h2⟩
          · exfalso
            rw [if_neg, if_neg, if_pos ⟨rfl, h2⟩] at hok
            · simp at hok
            · rintro ⟨-, hne⟩
              exact hne h1
            · rintro ⟨heq, -⟩
              cases heq
        · exfalso
          rw [if_neg, if_pos ⟨rfl, h1⟩] at hok
          · simp at hok
          · rintro ⟨heq, -⟩
            cases heq

/-- The concrete staff user and inputs for the C8 witness. -/
def w8_user : User :=
  { id := 2, email := "staff@x", hashedPassword := get_password_hash "pw"
    departmentId := some 1, role := Role.staff, active := true }

def w8_task : Task := { id := 8, departmentId := 1, assignedToId := 4, createdById := 3 }

def w8_input : TaskCreate :=
  { departmentId := 1, assignedToId := 2, startDate := 0, endDate := 5 }

def w8_state : St :=
  { users := [w8_user], refreshTokens := [], tasks := []
    departments := [{ id := 1, name := "Programs" }], grants := [] }

def w8_newTask : Task := { id := 9, departmentId := 1, assignedToId := 2, createdById := 2 }

/-- Witness for C8 at concrete inputs: the staff user of department 1 is
not the assignee of `w8_task` (so the guard part is exercised at a
concrete instance) and a concrete successful creation implies the
department and self-assignment equalities. -/
theorem staff_ownership_scope_witness :
    (task_guard w8_task w8_user = .ok () ↔ w8_user.id = w8_task.assignedToId) ∧
    (w8_user.departmentId = some w8_input.departmentId ∧ w8_user.id = w8_input.assignedToId) := by
  refine ⟨(staff_ownership_scope w8_user w8_task w8_state w8_input 9 rfl).1, ?_⟩
  exact (staff_ownership_scope w8_user w8_task w8_state w8_input 9 rfl).2 w8_newTask
    { w8_state with tasks := [w8_newTask] } rfl

/-! ## C3 -/

/-- The concrete state for the C3 counterexample: a staff user who is not
the assignee of task 7, plus a grant matching user 2, resource type
`task`, wildcard resource id `all` and permission `update`. -/
def c3_user : User :=
  { id := 2, email := "granted@x", hashedPassword := get_password_hash "pw"
    departmentId := some 1, role := Role.staff, active := true }

def c3_task : Task := { id := 7, departmentId := 1, assignedToId := 3, createdById := 3 }

def c3_grant : AccessGrant :=
  { userId := 2, resourceType := "task", resourceId := "all"
    permission := "update", departmentId := none }

def c3_state : St :=
  { users := [c3_user], refreshTokens := [], tasks := [c3_task]
    departments := [{ id := 1, name := "Programs" }], grants := [c3_grant] }

/-- C3 counterexample: the default role predicate denies (staff, not the
assignee), an `AccessGrant` row matching the user, the resource type, the
wildcard resource id `all` and the permission is present in the state, yet
the decision of the task-update authorization stays Forbidden - the code
never consults the grants table, so no denial is converted to Allow. -/
theorem access_grant_not_consulted_cex :
    c3_grant ∈ c3_state.grants ∧
    specGrantMatches c3_grant c3_user "task" "7" "update" = true ∧
    update_task_auth c3_state 7 c3_user =
      .error { status := 403, detail := "Task not assigned to you" } := by
  refine ⟨List.mem_singleton.mpr rfl, ?_, rfl⟩
  decide

/-- C3 amended: `AccessGrant` rows are persisted and listable but never
consulted by the authorization checks; when the default role predicate
denies a task update, the result remains Forbidden even if a grant
matching the user, resource type, resource id (or wildcard) and permission
is present in the state. -/
theorem access_grant_denial_stands
    (s : St) (taskId : Nat) (user : User) (task : Task) (g : AccessGrant)
    (htask : s.tasks.find? (fun t => t.id == taskId) = some task)
    (hrole : user.role = Role.staff) (hown : user.id ≠ task.assignedToId)
    (hg : g ∈ s.grants)
    (hmatch : specGrantMatches g user "task" (toString taskId) "update" = true) :
    update_task_auth s taskId user =
      .error { status := 403, detail := "Task not assigned to you" } := by
  unfold update_task_auth
  rw [htask]
  unfold task_guard
  rw [hrole]
  simp [hown]

/-- Witness for C3 (amended) at the concrete counterexample state. -/
theorem access_grant_denial_stands_witness :
    update_task_auth c3_state 7 c3_user =
      .error { status := 403, detail := "Task not assigned to you" } :=
  access_grant_denial_stands c3_state 7 c3_user c3_task c3_grant rfl rfl
    (by decide) (List.mem_singleton.mpr rfl) (by decide)

/-! ## C1 -/

/-- A row located by the refresh lookup carries the looked-up hash. -/
lemma refreshQuery_hash {tokenHash : String} {now : Nat} {r : RefreshToken}
    (h : refreshQuery tokenHash now r = true) : r.tokenHash = tokenHash := by
  have := (Bool.and_eq_true _ _).mp ((Bool.and_eq_true _ _).mp h).1
  exact beq_iff_eq.mp this.1

/-- After the rotation step marked by `markFirstRevoked`, no row of the
ledger passes the refresh lookup for the same hash at any time, provided
the ledger's hashes are pairwise distinct (the unique index on
`token_hash`). -/
lemma markFirstRevoked_no_match (tokenHash : String) (now now2 : Nat)
    (l : List RefreshToken) (r : RefreshToken)
    (hnodup : (l.map (fun t => t.tokenHash)).Nodup)
    (hfind : l.find? (refreshQuery tokenHash now) = some r) :
    ∀ x ∈ markFirstRevoked (refreshQuery tokenHash now) l,
      ¬ refreshQuery tokenHash now2 x = true := by
  induction l with
  | nil => simp [List.find?] at hfind
  | cons a l ih =>
    rw [List.map_cons, List.nodup_cons] at hnodup
    by_cases ha : refreshQuery tokenHash now a = true
    · rw [List.find?_cons_of_pos _ ha] at hfind
      cases hfind
      unfold markFirstRevoked
      rw [if_pos ha]
      intro x hx
      rcases List.mem_cons.mp hx with hx | hx
      · subst hx
        simp [refreshQuery]
      · intro hq
        apply hnodup.1
        rw [refreshQuery_hash ha]
        exact List.mem_map.mpr ⟨x, hx, refreshQuery_hash hq⟩
    · have ha' : ¬ refreshQuery tokenHash now a = true := ha
      rw [List.find?_cons_of_neg _ ha'] at hfind
      unfold markFirstRevoked
      rw [if_neg ha']
      intro x hx
      rcases List.mem_cons.mp hx with hx | hx
      · subst hx
        intro hq
        apply hnodup.1
        have hr : r ∈ l := List.mem_of_find?_eq_some hfind
        have hrq : refreshQuery tokenHash now r = true := List.find?_some hfind
        rw [refreshQuery_hash hq, ← refreshQuery_hash hrq]
        exact List.mem_map.mpr ⟨r, hr, rfl⟩
      · exact ih hnodup.2 hfind x hx

/-- Unfolding of `refresh_token` when the lookup fails. -/
lemma refresh_token_of_find_none (s : St) (raw freshRaw : String) (now : Nat)
    (h : s.refreshTokens.find? (refreshQuery (hash_refresh_token raw) now) = none) :
    refresh_token s raw freshRaw now = (.error invalid_refresh_error, s) := by
  unfold refresh_token
  rw [h]

/-- C1 amended: for a refresh secret `T` whose ledger row is unrevoked and
unexpired AND whose owning user exists with `active = true`, one
`refresh(T)` succeeds with a new access/refresh pair, and every subsequent
`refresh(T)` with the same original secret on the resulting state fails
with the 401 `Invalid refresh token`, at every later time - in particular
before `T`'s natural expiry. (Hypotheses: the ledger hashes are pairwise
distinct, the unique index on `token_hash`; and the freshly generated
secret hashes differently from `T`, collision-freedom of the random
48-byte secret.) The unamended claim omits the owner-active condition and
fails: see the counterexample. -/
theorem refresh_single_use_rotation
    (s : St) (raw freshRaw : String) (now : Nat) (r : RefreshToken) (u : User)
    (hnodup : (s.refreshTokens.map (fun t => t.tokenHash)).Nodup)
    (hfind : s.refreshTokens.find? (refreshQuery (hash_refresh_token raw) now) = some r)
    (huser : s.users.find? (fun v => v.id == r.userId) = some u)
    (hactive : u.active = true)
    (hfresh : hash_refresh_token freshRaw ≠ hash_refresh_token raw) :
    ∃ pair s2, refresh_token s raw freshRaw now = (.ok pair, s2) ∧
      ∀ freshRaw2 now2, refresh_token s2 raw freshRaw2 now2 =
        (.error invalid_refresh_error, s2) := by
  refine ⟨{ accessToken := create_access_token u.id now, refreshSecret := freshRaw },
    { s with refreshTokens :=
        markFirstRevoked (refreshQuery (hash_refresh_token raw) now) s.refreshTokens ++
        [{ userId := u.id, tokenHash := hash_refresh_token freshRaw,
           expiresAt := now + refresh_token_expire_minutes * 60, revoked := false }] },
    ?_, ?_⟩
  · unfold refresh_token
    rw [hfind]
    simp only [huser, hactive, Bool.not_true, Bool.false_eq_true, if_false]
    rfl
  · intro freshRaw2 now2
    apply refresh_token_of_find_none
    apply List.find?_eq_none.mpr
    intro x hx
    rcases List.mem_append.mp hx with hx | hx
    · exact markFirstRevoked_no_match _ now now2 s.refreshTokens r hnodup hfind x hx
    · rcases List.mem_singleton.mp hx with rfl
      intro hq
      exact hfresh (refreshQuery_hash hq)

/-- The concrete active user, ledger row and state for the C1 witness. -/
def w1_user : User :=
  { id := 1, email := "a@x", hashedPassword := get_password_hash "pw"
    departmentId := none, role := Role.admin, active := true }

def w1_rec : RefreshToken :=
  { userId := 1, tokenHash := hash_refresh_token "T", expiresAt := 1000, revoked := false }

def w1_state : St :=
  { users := [w1_user], refreshTokens := [w1_rec], tasks := [], departments := [], grants := [] }

/-- Witness for C1 (amended) at concrete inputs: one rotation succeeds and
the immediate replay of the original secret is rejected. -/
theorem refresh_single_use_rotation_witness :
    resultOk (refresh_token w1_state "T" "F" 0).1 = true ∧
    refresh_token (refresh_token w1_state "T" "F" 0).2 "T" "X" 5 =
      (.error invalid_refresh_error, (refresh_token w1_state "T" "F" 0).2) := by
  obtain ⟨pair, s2, h1, h2⟩ := refresh_single_use_rotation w1_state "T" "F" 0 w1_rec w1_user
    (by decide) (by decide) (by decide) rfl (by decide)
  rw [h1]
  exact ⟨rfl, h2 "X" 5⟩

/-- The concrete state for the C1 counterexample: an INACTIVE user whose
password matches, so login issues them a refresh secret. -/
def c1_user : User :=
  { id := 4, email := "u@x", hashedPassword := get_password_hash "pw"
    departmentId := none, role := Role.staff, active := false }

def c1_state0 : St :=
  { users := [c1_user], refreshTokens := [], tasks := [], departments := [], grants := [] }

/-- The state after the inactive user logs in and receives secret "rawT". -/
def c1_state1 : St := (login_for_access_token c1_state0 "u@x" "pw" "rawT" 0).2

/-- C1 counterexample: a refresh secret issued by login whose ledger row is
unrevoked and unexpired, yet `refresh` FAILS (401 `User inactive`) because
the owner is inactive - so "refresh on a state where the record is
unrevoked and unexpired succeeds" is false as stated; the owner-active
condition is needed. -/
theorem refresh_inactive_owner_cex :
    resultOk (login_for_access_token c1_state0 "u@x" "pw" "rawT" 0).1 = true ∧
    (c1_state1.refreshTokens.find? (refreshQuery (hash_refresh_token "rawT") 10)).isSome = true ∧
    refresh_token c1_state1 "rawT" "rawU" 10 = (.error user_inactive_error, c1_state1) :=
  ⟨rfl, rfl, rfl⟩

/-! ## C10 -/

/-- Reactivating a user changes exactly the `active` flag of the rows with
the given id, so the primary-key lookup finds the reactivated user. -/
lemma find?_reactivate (l : List User) (uid : Nat) (u : User)
    (h : l.find? (fun v => v.id == uid) = some u) :
    (l.map (fun v => if v.id == uid then { v with active := true } else v)).find?
      (fun v => v.id == uid) = some { u with active := true } := by
  induction l with
  | nil => simp [List.find?] at h
  | cons a l ih =>
    by_cases ha : (a.id == uid) = true
    · rw [List.find?_cons_of_pos (p := fun (v : User) => v.id == uid) l ha] at h
      cases h
      rw [List.map_cons, if_pos ha]
      exact List.find?_cons_of_pos (p := fun (v : User) => v.id == uid) _ ha
    · have ha' : ¬ ((fun (v : User) => v.id == uid) a = true) := ha
      rw [List.find?_cons_of_neg (p := fun (v : User) => v.id == uid) l ha'] at h
      rw [List.map_cons, if_neg ha,
        List.find?_cons_of_neg (p := fun (v : User) => v.id == uid)
          (List.map (fun v => if v.id == uid then { v with active := true } else v) l) ha']
      exact ih h

/-- C10: when the presented secret's ledger row is unrevoked and unexpired
but the owning user is absent or inactive, `refresh` fails with the 401
`User inactive` and returns the state UNCHANGED - the presented row is not
revoked and no new row is inserted (the `raise` sits before any mutation);
and in the inactive case, reactivating the owner lets the very same secret
succeed. -/
theorem refresh_inactive_preserves_ledger
    (s : St) (raw freshRaw : String) (now : Nat) (r : RefreshToken)
    (hfind : s.refreshTokens.find? (refreshQuery (hash_refresh_token raw) now) = some r)
    (howner : s.users.find? (fun v => v.id == r.userId) = none ∨
      ∃ u, s.users.find? (fun v => v.id == r.userId) = some u ∧ u.active = false) :
    refresh_token s raw freshRaw now = (.error user_inactive_error, s) ∧
    (∀ u, s.users.find? (fun v => v.id == r.userId) = some u →
      ∃ pair s2, refresh_token (reactivate s r.userId) raw freshRaw now = (.ok pair, s2)) := by
  constructor
  · unfold refresh_token
    rw [hfind]
    rcases howner with h | ⟨u, hu, hact⟩
    · simp only [h]
    · simp [hu, hact]
  · intro u hu
    have hfind2 : (reactivate s r.userId).refreshTokens.find?
        (refreshQuery (hash_refresh_token raw) now) = some r := hfind
    have huser2 : (reactivate s r.userId).users.find? (fun v => v.id == r.userId) =
        some { u with active := true } := find?_reactivate s.users r.userId u hu
    refine ⟨{ accessToken := create_access_token u.id now, refreshSecret := freshRaw },
      { users := s.users.map (fun v => if v.id == r.userId then { v with active := true } else v)
        refreshTokens :=
          markFirstRevoked (refreshQuery (hash_refresh_token raw) now) s.refreshTokens ++
          [{ userId := u.id, tokenHash := hash_refresh_token freshRaw,
             expiresAt := now + refresh_token_expire_minutes * 60, revoked := false }]
        tasks := s.tasks
        departments := s.departments
        grants := s.grants }, ?_⟩
    unfold refresh_token
    rw [hfind2]
    simp only [huser2]
    rfl

/-- The concrete inactive owner, ledger row and state for the C10 witness. -/
def w10_user : User :=
  { id := 1, email := "b@x", hashedPassword := get_password_hash "pw"
    departmentId := none, role := Role.staff, active := false }

def w10_rec : RefreshToken :=
  { userId := 1, tokenHash := hash_refresh_token "T", expiresAt := 50, revoked := false }

def w10_state : St :=
  { users := [w10_user], refreshTokens := [w10_rec], tasks := [], departments := [], grants := [] }

/-- Witness for C10 at concrete inputs: the refresh fails with the 401 and
the unchanged state, and succeeds after the owner is reactivated. -/
theorem refresh_inactive_preserves_ledger_witness :
    refresh_token w10_state "T" "F" 0 = (.error user_inactive_error, w10_state) ∧
    resultOk (refresh_token (reactivate w10_state w10_rec.userId) "T" "F" 0).1 = true := by
  obtain ⟨h1, h2⟩ := refresh_inactive_preserves_ledger w10_state "T" "F" 0 w10_rec
    (by decide) (Or.inr ⟨w10_user, rfl, rfl⟩)
  obtain ⟨pair, s2, h3⟩ := h2 w10_user rfl
  rw [h3]
  exact ⟨h1, rfl⟩

end ERP
